import Mathlib

/-!
Shallow embedding of the zombie-survival simulation core.

Conventions used throughout:
 - Python floats are modelled as exact rationals.
 - Timestamps (pygame.time.get_ticks results, milliseconds) are naturals; the
   Python expression  t1 - t0 > c  coincides with truncated natural
   subtraction because every cooldown constant c is nonnegative.
 - Comparisons of Euclidean distances against nonnegative thresholds are
   translated by squaring both sides, which is exact over the reals:
   sqrt d < c iff d < c * c for c larger than 0 and d nonnegative.
 - Calls into math.cos, math.sin, math.atan2 and the random module are
   modelled by an environment of unconstrained rational-valued functions, so
   every theorem below holds for all possible trigonometric values and
   random draws.
 - pygame.Rect truncates float coordinates toward zero, and colliderect
   requires strictly positive overlap on both axes.
-/

namespace ZombieSurvivor

/-! Constants from constants.py. -/

def MAP_SIZE : ℤ := 1500

def PLAYER_SPEED : ℚ := 5

def PLAYER_SIZE : ℕ := 20

def PLAYER_MAX_HEALTH : ℤ := 5

def ZOMBIE_SPEED : ℚ := 3

def ZOMBIE_SIZE : ℕ := 18

def ZOMBIE_HEALTH : ℤ := 3

def FAST_ZOMBIE_SPEED : ℚ := 4

def FAST_ZOMBIE_SIZE : ℕ := 16

def FAST_ZOMBIE_HEALTH : ℤ := 2

def BULLET_SIZE : ℕ := 5

def ZOMBIE_STUCK_THRESHOLD : ℕ := 30

def ZOMBIE_AVOIDANCE_DURATION : ℕ := 60

def ZOMBIE_MIN_SPAWN_DISTANCE : ℚ := 200

/-- Weapon kinds, from the WeaponType enum in constants.py. -/
inductive WeaponType where
  | pistol
  | shotgun
  | machineGun
  | grenade
  | minigun
deriving DecidableEq

/-- Hero kinds, from the HeroType enum in constants.py. -/
inductive HeroType where
  | nathan
  | kelly
deriving DecidableEq

/-- WEAPON_STATS damage column. -/
def weaponDamage : WeaponType → ℤ
  | .pistol => 1
  | .shotgun => 3
  | .machineGun => 2
  | .grenade => 5
  | .minigun => 4

/-- WEAPON_STATS cooldown column (milliseconds). -/
def weaponCooldown : WeaponType → ℕ
  | .pistol => 300
  | .shotgun => 500
  | .machineGun => 100
  | .grenade => 1500
  | .minigun => 50

/-- WEAPON_STATS bullet_speed column. -/
def weaponBulletSpeed : WeaponType → ℚ
  | .pistol => 10
  | .shotgun => 8
  | .machineGun => 12
  | .grenade => 6
  | .minigun => 15

/-- WEAPON_STATS max_ammo column; none encodes the float infinity entry of
the grenade row. -/
def weaponMaxAmmo : WeaponType → Option ℕ
  | .pistol => some 12
  | .shotgun => some 5
  | .machineGun => some 30
  | .grenade => none
  | .minigun => some 200

/-- WEAPON_STATS reload_time column (milliseconds). -/
def weaponReloadTime : WeaponType → ℕ
  | .pistol => 2000
  | .shotgun => 1000
  | .machineGun => 3000
  | .grenade => 0
  | .minigun => 5000

/-- WEAPON_STATS explosion_radius of the grenade row. -/
def GRENADE_EXPLOSION_RADIUS : ℚ := 80

/-- Squaring, the translation of the Python x**2 pattern. -/
def sq (q : ℚ) : ℚ := q * q

/-- Truncation toward zero, the conversion pygame.Rect applies to float
coordinates. -/
def pyInt (q : ℚ) : ℤ := if q < 0 then -((-q).floor) else q.floor

/-- An axis-aligned rectangle, as pygame.Rect stores it: integer corner and
extent. -/
structure Rect where
  x : ℤ
  y : ℤ
  w : ℤ
  h : ℤ
deriving DecidableEq

/-- pygame colliderect: the rectangles overlap with positive area.  All
rectangles built by this program have positive width and height, for which
this strict formula is the pygame behaviour. -/
def Rect.colliderect (a b : Rect) : Bool :=
  decide (a.x < b.x + b.w ∧ a.x + a.w > b.x ∧ a.y < b.y + b.h ∧ a.y + a.h > b.y)

/-- The bounding rectangle pygame.Rect(x - size//2, y - size//2, size, size)
used by zombies, the player and grenades. -/
def centerRect (x y : ℚ) (size : ℕ) : Rect :=
  { x := pyInt (x - ((size / 2 : ℕ) : ℚ))
    y := pyInt (y - ((size / 2 : ℕ) : ℚ))
    w := (size : ℤ)
    h := (size : ℤ) }

/-- Environment of trigonometric and random oracles.  math.cos, math.sin and
math.atan2 operate on IEEE doubles, which are rationals; random.uniform and
random.random draws are free parameters, so theorems quantify over every
possible draw. -/
structure Env where
  cos : ℚ → ℚ
  sin : ℚ → ℚ
  atan2 : ℚ → ℚ → ℚ
  pi : ℚ
  randUniform : ℚ
  randAngles : Fin 8 → ℚ
  waveRand : ℕ → ℚ
  spawnAttempts : ℕ → List (ℤ × ℤ)

/-- Zombie variant tag, standing in for the Python class of the object
(Zombie, FastZombie, ZombieBoss). -/
inductive ZombieKind where
  | normal
  | fast
  | boss
deriving DecidableEq

/-- State of one hostile actor, from Zombie.__init__ in zombie.py (plus the
boss pulse counter of ZombieBoss). -/
structure Zombie where
  x : ℚ
  y : ℚ
  size : ℕ
  speed : ℚ
  health : ℤ
  maxHealth : ℤ
  lastDamageTime : ℕ
  angleToPlayer : ℚ
  stuckCounter : ℕ
  lastX : ℚ
  lastY : ℚ
  avoidanceAngle : ℚ
  avoidanceTimer : ℕ
  kind : ZombieKind
  bossPulseTime : ℕ
deriving DecidableEq

/-- Zombie.__init__. -/
def Zombie.init (x y : ℚ) : Zombie :=
  { x := x, y := y, size := ZOMBIE_SIZE, speed := ZOMBIE_SPEED
    health := ZOMBIE_HEALTH, maxHealth := ZOMBIE_HEALTH
    lastDamageTime := 0, angleToPlayer := 0, stuckCounter := 0
    lastX := x, lastY := y, avoidanceAngle := 0, avoidanceTimer := 0
    kind := ZombieKind.normal, bossPulseTime := 0 }

/-- FastZombie.__init__. -/
def FastZombie.init (x y : ℚ) : Zombie :=
  { Zombie.init x y with
    speed := FAST_ZOMBIE_SPEED, size := FAST_ZOMBIE_SIZE
    health := FAST_ZOMBIE_HEALTH, maxHealth := FAST_ZOMBIE_HEALTH
    kind := ZombieKind.fast }

/-- ZombieBoss.__init__. -/
def ZombieBoss.init (x y : ℚ) : Zombie :=
  { Zombie.init x y with
    size := 35, speed := 3/2, health := 30, maxHealth := 30
    kind := ZombieKind.boss }

/-- The obstacle part of Zombie._check_collision. -/
def collidesWithObstacles (x y : ℚ) (size : ℕ) (obstacles : List Rect) : Bool :=
  obstacles.any fun o => (centerRect x y size).colliderect o

/-- Zombie._check_collision.  The caller passes the other zombies with the
zombie itself excluded, standing in for the Python identity test
other != self.  The two distance comparisons are squared. -/
def Zombie.checkCollision (z : Zombie) (x y : ℚ) (obstacles : List Rect)
    (others : List Zombie) : Bool :=
  collidesWithObstacles x y z.size obstacles ||
    others.any fun o =>
      let dsq := sq (x - o.x) + sq (y - o.y)
      decide (dsq < sq ((((z.size : ℚ) + (o.size : ℚ))) * (6/10)) ∧ dsq < sq 20)

/-- The guarded commit shared by every rung of the movement ladder: move by
the displacement when the destination is collision free, else do not move. -/
def Zombie.tryMoveAt (z : Zombie) (dx dy : ℚ) (obstacles : List Rect)
    (others : List Zombie) : Option (ℚ × ℚ) :=
  if z.checkCollision (z.x + dx) (z.y + dy) obstacles others then none
  else some (z.x + dx, z.y + dy)

/-- Zombie._determine_movement_angle.  Returns the chosen heading together
with the updated avoidance bookkeeping.  The distance argument is accepted
and ignored exactly as in the source. -/
def Zombie.determineMovementAngle (env : Env) (z : Zombie)
    (_distSqToPlayer : ℚ) : ℚ × Zombie :=
  let z := if z.avoidanceTimer > 0 then
    { z with avoidanceTimer := z.avoidanceTimer - 1 } else z
  if z.avoidanceTimer > 0 then (z.avoidanceAngle, z)
  else if z.stuckCounter > ZOMBIE_STUCK_THRESHOLD then
    let a := z.angleToPlayer + env.randUniform
    (a, { z with avoidanceAngle := a
                 avoidanceTimer := ZOMBIE_AVOIDANCE_DURATION
                 stuckCounter := z.stuckCounter - 10 })
  else (z.angleToPlayer, z)

/-- Zombie._try_direct_movement. -/
def Zombie.tryDirectMovement (env : Env) (z : Zombie) (angle : ℚ)
    (obstacles : List Rect) (others : List Zombie) : Option (ℚ × ℚ) :=
  z.tryMoveAt (env.cos angle * z.speed) (env.sin angle * z.speed)
    obstacles others

/-- Zombie._try_axis_aligned_movement. -/
def Zombie.tryAxisAlignedMovement (env : Env) (z : Zombie) (angle : ℚ)
    (obstacles : List Rect) (others : List Zombie) : Option (ℚ × ℚ) :=
  let dx := env.cos angle * z.speed
  let dy := env.sin angle * z.speed
  match z.tryMoveAt dx 0 obstacles others with
  | some p => some p
  | none => z.tryMoveAt 0 dy obstacles others

/-- Zombie._try_wall_sliding: eight candidate headings at 80 percent
speed. -/
def Zombie.tryWallSliding (env : Env) (z : Zombie) (angle : ℚ)
    (obstacles : List Rect) (others : List Zombie) : Option (ℚ × ℚ) :=
  let slideAngles : List ℚ :=
    [angle + 3/10, angle - 3/10, angle + 6/10, angle - 6/10,
     angle + 9/10, angle - 9/10, angle + env.pi/2, angle - env.pi/2]
  slideAngles.findSome? fun a =>
    z.tryMoveAt (env.cos a * z.speed * (8/10)) (env.sin a * z.speed * (8/10))
      obstacles others

/-- Zombie._try_unstuck_movement: eight random headings at half speed. -/
def Zombie.tryUnstuckMovement (env : Env) (z : Zombie)
    (obstacles : List Rect) (others : List Zombie) : Option (ℚ × ℚ) :=
  (List.finRange 8).findSome? fun i =>
    let a := env.randAngles i
    z.tryMoveAt (env.cos a * z.speed * (1/2)) (env.sin a * z.speed * (1/2))
      obstacles others

/-- Zombie._update_stuck_detection.  The comparison of the movement distance
against 0.1 is squared. -/
def Zombie.updateStuckDetection (z : Zombie) (prevX prevY : ℚ)
    (success : Bool) : Zombie :=
  let movementDistSq := sq (z.x - prevX) + sq (z.y - prevY)
  let z := if success && decide (movementDistSq > sq (1/10)) then
      { z with stuckCounter := z.stuckCounter - 2 }
    else { z with stuckCounter := z.stuckCounter + 1 }
  { z with stuckCounter := min z.stuckCounter (ZOMBIE_STUCK_THRESHOLD * 2) }

/-- Zombie.update: the escalating movement ladder. -/
def Zombie.update (env : Env) (z : Zombie) (playerX playerY : ℚ)
    (obstacles : List Rect) (others : List Zombie) : Zombie :=
  let prevX := z.x
  let prevY := z.y
  let z := { z with angleToPlayer := env.atan2 (playerY - z.y) (playerX - z.x) }
  let distSqToPlayer := sq (playerX - z.x) + sq (playerY - z.y)
  let am := z.determineMovementAngle env distSqToPlayer
  let movementAngle := am.1
  let z := am.2
  match z.tryDirectMovement env movementAngle obstacles others with
  | some p => Zombie.updateStuckDetection { z with x := p.1, y := p.2 } prevX prevY true
  | none =>
  match z.tryAxisAlignedMovement env movementAngle obstacles others with
  | some p => Zombie.updateStuckDetection { z with x := p.1, y := p.2 } prevX prevY true
  | none =>
  match z.tryWallSliding env movementAngle obstacles others with
  | some p => Zombie.updateStuckDetection { z with x := p.1, y := p.2 } prevX prevY true
  | none =>
    let z := match z.tryUnstuckMovement env obstacles others with
      | some p => { z with x := p.1, y := p.2 }
      | none => z
    Zombie.updateStuckDetection z prevX prevY false

/-- ZombieBoss.update: the base ladder, then the pulse counter. -/
def ZombieBoss.update (env : Env) (z : Zombie) (playerX playerY : ℚ)
    (obstacles : List Rect) (others : List Zombie) : Zombie :=
  let z2 := Zombie.update env z playerX playerY obstacles others
  { z2 with bossPulseTime := z2.bossPulseTime + 1 }

/-- Python dynamic dispatch of the update method over the three variants. -/
def Zombie.updateDispatch (env : Env) (z : Zombie) (playerX playerY : ℚ)
    (obstacles : List Rect) (others : List Zombie) : Zombie :=
  match z.kind with
  | .boss => ZombieBoss.update env z playerX playerY obstacles others
  | _ => Zombie.update env z playerX playerY obstacles others

/-- Zombie.take_damage. -/
def Zombie.takeDamageBase (z : Zombie) (damage : ℤ) (t : ℕ) : Zombie × Bool :=
  let z := { z with health := z.health - damage, lastDamageTime := t }
  (z, decide (z.health ≤ 0))

/-- ZombieBoss.take_damage: damage at or above 1000 is replaced by its
quotient by 500 (all quantities positive, so every integer division
convention agrees with the Python floor division). -/
def ZombieBoss.takeDamage (z : Zombie) (damage : ℤ) (t : ℕ) : Zombie × Bool :=
  let damage := if damage ≥ 1000 then damage / 500 else damage
  let z := { z with health := z.health - damage, lastDamageTime := t }
  (z, decide (z.health ≤ 0))

/-- Python dynamic dispatch of take_damage over the three variants. -/
def Zombie.takeDamage (z : Zombie) (damage : ℤ) (t : ℕ) : Zombie × Bool :=
  match z.kind with
  | .boss => ZombieBoss.takeDamage z damage t
  | _ => Zombie.takeDamageBase z damage t

/-- Zombie.can_damage_player, with the distance comparison squared. -/
def Zombie.canDamagePlayer (z : Zombie) (playerX playerY : ℚ) : Bool :=
  decide (sq (z.x - playerX) + sq (z.y - playerY) < sq ((z.size : ℚ) + 20))

/-- A projectile.  The HomingBullet subclass is folded into the same record
behind the homing flag; its extra fields are zero for plain bullets. -/
structure Bullet where
  x : ℚ
  y : ℚ
  dx : ℚ
  dy : ℚ
  damage : ℤ
  size : ℕ
  homing : Bool
  homingDuration : ℕ
  creationTime : ℕ
  speed : ℚ
deriving DecidableEq

/-- Bullet.__init__. -/
def Bullet.init (env : Env) (x y speed angle : ℚ) (damage : ℤ) : Bullet :=
  { x := x, y := y
    dx := env.cos angle * speed, dy := env.sin angle * speed
    damage := damage, size := BULLET_SIZE
    homing := false, homingDuration := 0, creationTime := 0, speed := speed }

/-- HomingBullet.__init__ with the default ten second duration;
creation_time records the current tick. -/
def HomingBullet.init (env : Env) (t : ℕ) (x y speed angle : ℚ)
    (damage : ℤ) : Bullet :=
  { Bullet.init env x y speed angle damage with
    homing := true, homingDuration := 10000, creationTime := t }

/-- Grenade state, from Grenade.__init__ in grenade.py. -/
structure Grenade where
  x : ℚ
  y : ℚ
  speed : ℚ
  angle : ℚ
  damage : ℤ
  explosionRadius : ℚ
  size : ℕ
  dx : ℚ
  dy : ℚ
  exploded : Bool
  explosionTimer : ℕ
  maxExplosionTime : ℕ
  flightTime : ℕ
  maxFlightTime : ℕ
deriving DecidableEq

/-- Grenade.__init__. -/
def Grenade.init (env : Env) (x y speed angle : ℚ) (damage : ℤ)
    (explosionRadius : ℚ) : Grenade :=
  { x := x, y := y, speed := speed, angle := angle, damage := damage
    explosionRadius := explosionRadius, size := 8
    dx := env.cos angle * speed, dy := env.sin angle * speed
    exploded := false, explosionTimer := 0, maxExplosionTime := 20
    flightTime := 0, maxFlightTime := 90 }

/-- Grenade.update: fly and count flight time until the ceiling forces the
detonation; afterwards advance the explosion display timer. -/
def Grenade.update (g : Grenade) : Grenade :=
  if !g.exploded then
    let g := { g with x := g.x + g.dx, y := g.y + g.dy
                      flightTime := g.flightTime + 1 }
    if g.flightTime ≥ g.maxFlightTime then { g with exploded := true } else g
  else { g with explosionTimer := g.explosionTimer + 1 }

/-- Grenade.check_collision: detonate on proximity to a zombie or on
bounding-box contact with an obstacle.  Distance comparison squared. -/
def Grenade.checkCollision (g : Grenade) (zombies : List Zombie)
    (obstacles : List Rect) : Grenade × Bool :=
  if g.exploded then (g, false)
  else if zombies.any fun z =>
      decide (sq (g.x - z.x) + sq (g.y - z.y) < sq ((g.size : ℚ) + (z.size : ℚ))) then
    ({ g with exploded := true }, true)
  else if obstacles.any fun o => (centerRect g.x g.y g.size).colliderect o then
    ({ g with exploded := true }, true)
  else (g, false)

/-- Grenade.get_explosion_damage_targets: the zombies inside the blast
radius and whether the player is inside it.  Distance comparisons squared;
the source comparisons are inclusive at the boundary. -/
def Grenade.getExplosionDamageTargets (g : Grenade) (zombies : List Zombie)
    (playerX playerY : ℚ) : List Zombie × Bool :=
  if !g.exploded then ([], false)
  else
    (zombies.filter fun z =>
        decide (sq (g.x - z.x) + sq (g.y - z.y) ≤ sq g.explosionRadius),
     decide (sq (g.x - playerX) + sq (g.y - playerY) ≤ sq g.explosionRadius))

/-- Grenade.is_finished. -/
def Grenade.isFinished (g : Grenade) : Bool :=
  g.exploded && decide (g.explosionTimer ≥ g.maxExplosionTime)

/-- Grenade.is_out_of_bounds. -/
def Grenade.isOutOfBounds (g : Grenade) : Bool :=
  decide (g.x < 0 ∨ g.x > 1500 ∨ g.y < 0 ∨ g.y > 1500)

/-- The ammo dictionary entry of the grenade row holds float infinity; this
marker mirrors the test  self.ammo[current_weapon] != float('inf')  in
Player.shoot.  Every other entry is a finite natural. -/
def ammoIsInf (w : WeaponType) : Bool := w == WeaponType.grenade

/-- Player state, from Player.__init__ in player.py. -/
structure Player where
  x : ℚ
  y : ℚ
  size : ℕ
  speed : ℚ
  health : ℤ
  maxHealth : ℤ
  weapons : Fin 2 → Option WeaponType
  currentWeaponIndex : Fin 2
  lastShot : ℕ
  weaponAngle : ℚ
  grenadeCount : ℤ
  ammo : WeaponType → ℕ
  isReloading : Bool
  reloadStartTime : ℕ
  reloadWeapon : Option WeaponType
  shotgunShellsReloaded : ℕ
  instaKillActive : Bool
  instaKillEndTime : ℕ
  score : ℕ
  killsNormal : ℕ
  killsFast : ℕ
  killsBoss : ℕ
  totalKills : ℕ
  killsWithoutHit : ℕ
  lastSkillBonusAt : ℕ
  heroType : HeroType
  abilityCharge : ℕ
  abilityActive : Bool
  abilityEndTime : ℕ

/-- The initial ammo dictionary (the grenade entry, float infinity in the
source, is modelled by ammoIsInf and never read). -/
def initialAmmo : WeaponType → ℕ
  | .pistol => 12
  | .shotgun => 5
  | .machineGun => 30
  | .grenade => 0
  | .minigun => 200

/-- Player.__init__. -/
def Player.init (x y : ℚ) (heroType : HeroType) : Player :=
  { x := x, y := y, size := PLAYER_SIZE, speed := PLAYER_SPEED
    health := PLAYER_MAX_HEALTH, maxHealth := PLAYER_MAX_HEALTH
    weapons := fun i => if i = 0 then some WeaponType.pistol else some WeaponType.grenade
    currentWeaponIndex := 0, lastShot := 0, weaponAngle := 0
    grenadeCount := 2, ammo := initialAmmo
    isReloading := false, reloadStartTime := 0, reloadWeapon := none
    shotgunShellsReloaded := 0
    instaKillActive := false, instaKillEndTime := 0
    score := 0, killsNormal := 0, killsFast := 0, killsBoss := 0
    totalKills := 0, killsWithoutHit := 0, lastSkillBonusAt := 0
    heroType := heroType, abilityCharge := 0
    abilityActive := false, abilityEndTime := 0 }

/-- Player.get_current_weapon. -/
def Player.getCurrentWeapon (p : Player) : Option WeaponType :=
  p.weapons p.currentWeaponIndex

/-- Player._clear_reload_state. -/
def Player.clearReloadState (p : Player) : Player :=
  { p with isReloading := false, reloadStartTime := 0
           reloadWeapon := none, shotgunShellsReloaded := 0 }

/-- Player.take_damage: lose one health and reset the hit-free streak and
its milestone marker; report whether the player died. -/
def Player.takeDamage (p : Player) : Player × Bool :=
  let p := { p with health := p.health - 1, killsWithoutHit := 0
                    lastSkillBonusAt := 0 }
  (p, decide (p.health ≤ 0))

/-- Player.start_reload, at tick t. -/
def Player.startReload (p : Player) (t : ℕ) : Player × Bool :=
  match p.getCurrentWeapon with
  | none => (p, false)
  | some w =>
    if w == WeaponType.grenade then (p, false)
    else if p.isReloading then (p, false)
    else
      match weaponMaxAmmo w with
      | none => (p, false)
      | some maxAmmo =>
        if p.ammo w ≥ maxAmmo then (p, false)
        else
          ({ p with isReloading := true, reloadStartTime := t
                    reloadWeapon := some w, shotgunShellsReloaded := 0 }, true)

/-- The while loop of the shotgun branch of Player.update_reload: load one
shell at a time up to the due count and up to max ammo. -/
def loadShotgunShells (ammo shellsReloaded due maxAmmo : ℕ) : ℕ × ℕ :=
  if shellsReloaded < due ∧ ammo < maxAmmo then
    loadShotgunShells (ammo + 1) (shellsReloaded + 1) due maxAmmo
  else (ammo, shellsReloaded)
termination_by due - shellsReloaded
decreasing_by omega

/-- Player.update_reload, at tick t.  The two unreachable none branches
correspond to states the source never constructs (reload_weapon is always a
weapon with finite max ammo while is_reloading holds). -/
def Player.updateReload (p : Player) (t : ℕ) : Player :=
  if !p.isReloading then p
  else
    match p.reloadWeapon with
    | none => p
    | some w =>
      let reloadTime := weaponReloadTime w
      match weaponMaxAmmo w with
      | none => p
      | some maxAmmo =>
        if w == WeaponType.shotgun then
          let timePerShell := reloadTime
          let elapsedTime := t - p.reloadStartTime
          let shellsDue := elapsedTime / timePerShell
          let r := loadShotgunShells (p.ammo w) p.shotgunShellsReloaded shellsDue maxAmmo
          let p := { p with ammo := Function.update p.ammo w r.1
                            shotgunShellsReloaded := r.2 }
          if p.ammo w ≥ maxAmmo then { p with isReloading := false } else p
        else
          if t - p.reloadStartTime ≥ reloadTime then
            { p with ammo := Function.update p.ammo w maxAmmo
                     isReloading := false }
          else p

/-- Player.add_kill: kill bookkeeping, ability charge, and the hit-free
streak milestone bonus.  Returns the bonus reported to the caller. -/
def Player.addKill (p : Player) (zombieType : String) : Player × ℕ :=
  let r :=
    if zombieType = "normal" then ({ p with killsNormal := p.killsNormal + 1 }, 100)
    else if zombieType = "fast" then ({ p with killsFast := p.killsFast + 1 }, 150)
    else if zombieType = "boss" then ({ p with killsBoss := p.killsBoss + 1 }, 1500)
    else (p, 100)
  let p := r.1
  let scorePoints : ℕ := r.2
  let p := { p with totalKills := p.totalKills + 1
                    killsWithoutHit := p.killsWithoutHit + 1
                    score := p.score + scorePoints }
  let p := if p.abilityCharge < 100 then
      { p with abilityCharge := min 100 (p.abilityCharge + 20) }
    else p
  let skillBonusMilestone := (p.killsWithoutHit / 10) * 10
  if skillBonusMilestone > p.lastSkillBonusAt ∧ skillBonusMilestone ≥ 10 then
    let skillBonus := skillBonusMilestone * 50
    ({ p with score := p.score + skillBonus
              lastSkillBonusAt := skillBonusMilestone }, skillBonus)
  else (p, 0)

/-- The body of Player.shoot after the reload-interrupt gate: ammo check,
cooldown check, and projectile creation, at tick t. -/
def Player.shootFire (p : Player) (w : WeaponType) (t : ℕ) (targetX targetY : ℚ)
    (env : Env) : List Bullet × List Grenade × Player :=
  if w == WeaponType.grenade && decide (p.grenadeCount ≤ 0) then ([], [], p)
  else if !(w == WeaponType.grenade) && decide (p.ammo w ≤ 0) then ([], [], p)
  else if t - p.lastShot > weaponCooldown w then
    let p := { p with lastShot := t }
    let angle := env.atan2 (targetY - p.y) (targetX - p.x)
    let speed := weaponBulletSpeed w
    let damage : ℤ := if p.instaKillActive then 1000 else weaponDamage w
    if w == WeaponType.grenade then
      let p := { p with grenadeCount := p.grenadeCount - 1 }
      ([], [Grenade.init env p.x p.y speed angle damage GRENADE_EXPLOSION_RADIUS], p)
    else if w == WeaponType.shotgun then
      let p :=
        if !(p.heroType == HeroType.nathan && p.abilityActive) then
          let p := { p with ammo := Function.update p.ammo w (p.ammo w - 1) }
          if p.ammo w ≤ 0 then (p.startReload t).1 else p
        else p
      let spreads : List ℚ := [-2, -1, 0, 1, 2]
      (spreads.map fun i => Bullet.init env p.x p.y speed (angle + i * (2/10)) damage,
       [], p)
    else
      let p :=
        if !(ammoIsInf w) then
          if !(p.heroType == HeroType.nathan && p.abilityActive) then
            let p := { p with ammo := Function.update p.ammo w (p.ammo w - 1) }
            if p.ammo w ≤ 0 then (p.startReload t).1 else p
          else p
        else p
      let b := if p.heroType == HeroType.nathan && p.abilityActive then
          HomingBullet.init env t p.x p.y speed angle damage
        else Bullet.init env p.x p.y speed angle damage
      ([b], [], p)
  else ([], [], p)

/-- Player.shoot: slot and reload gates, then the firing body.  A shotgun
reload is interrupted before the cooldown is consulted. -/
def Player.shoot (p : Player) (t : ℕ) (targetX targetY : ℚ) (env : Env) :
    List Bullet × List Grenade × Player :=
  match p.getCurrentWeapon with
  | none => ([], [], p)
  | some w =>
    if p.isReloading && !(w == WeaponType.shotgun) then ([], [], p)
    else if p.isReloading && w == WeaponType.shotgun
        && decide (p.ammo w < 1) then ([], [], p)
    else
      let p := if p.isReloading && w == WeaponType.shotgun then
          { p with isReloading := false }
        else p
      p.shootFire w t targetX targetY env

/-- A weapon pickup, from weapon.py. -/
structure WeaponPickup where
  x : ℚ
  y : ℚ
  weaponType : WeaponType
  size : ℕ
  collected : Bool
deriving DecidableEq

/-- WeaponPickup.__init__. -/
def WeaponPickup.init (x y : ℚ) (weaponType : WeaponType) : WeaponPickup :=
  { x := x, y := y, weaponType := weaponType, size := 15, collected := false }

/-- The game_state string of Game. -/
inductive GamePhase where
  | menu
  | heroSelect
  | playing
  | won
  | lost
deriving DecidableEq

/-- The simulation-relevant state owned by Game (game.py). -/
structure GameState where
  player : Player
  bullets : List Bullet
  grenades : List Grenade
  zombies : List Zombie
  obstacles : List Rect
  weaponPickups : List WeaponPickup
  zombieSpawnTimer : ℕ
  zombiesSpawned : ℕ
  maxZombies : ℕ
  spawnInterval : ℕ
  zombiesPerWave : ℕ
  bossSpawned : Bool
  bossKilled : Bool
  currentWave : ℕ
  lastZombieDamage : ℕ
  phase : GamePhase
  skillBonusNotification : Option ℕ
  skillBonusNotificationTime : ℕ

/-- A game state with the Game.__init__ scalar defaults, the given entities,
and the phase already set to playing. -/
def mkGame (player : Player) (zombies : List Zombie) (obstacles : List Rect) :
    GameState :=
  { player := player, bullets := [], grenades := [], zombies := zombies
    obstacles := obstacles, weaponPickups := []
    zombieSpawnTimer := 0, zombiesSpawned := 0, maxZombies := 100
    spawnInterval := 5000, zombiesPerWave := 7
    bossSpawned := false, bossKilled := false, currentWave := 0
    lastZombieDamage := 0, phase := GamePhase.playing
    skillBonusNotification := none, skillBonusNotificationTime := 0 }

/-- The Python class chosen for one spawned zombie. -/
def zombieOfKind : ZombieKind → ℚ → ℚ → Zombie
  | .normal, x, y => Zombie.init x y
  | .fast, x, y => FastZombie.init x y
  | .boss, x, y => ZombieBoss.init x y

/-- Game._handle_boss_death: mark the boss killed, drop the minigun pickup,
and convert every zombie that is not a FastZombie into a FastZombie at the
same position, preserving health and facing angle. -/
def Game.handleBossDeath (g : GameState) (bossX bossY : ℚ) : GameState :=
  let g := { g with bossKilled := true }
  let g := { g with weaponPickups :=
    g.weaponPickups ++ [WeaponPickup.init bossX bossY WeaponType.minigun] }
  { g with zombies := g.zombies.map fun z =>
      if !(z.kind == ZombieKind.fast) then
        let fastZombie := FastZombie.init z.x z.y
        { fastZombie with health := z.health, angleToPlayer := z.angleToPlayer }
      else z }

/-- The acceptance test of one spawn attempt in Game._spawn_single_zombie:
farther than the minimum spawn distance from the player (comparison
squared), and the freshly built zombie has no collision at that point (the
source passes no other zombies, so only obstacles are tested). -/
def spawnOk (g : GameState) (kind : ZombieKind) (a : ℤ × ℤ) : Bool :=
  decide (sq ((a.1 : ℚ) - g.player.x) + sq ((a.2 : ℚ) - g.player.y)
            > sq ZOMBIE_MIN_SPAWN_DISTANCE)
    && !(Zombie.checkCollision (zombieOfKind kind (a.1 : ℚ) (a.2 : ℚ))
          (a.1 : ℚ) (a.2 : ℚ) g.obstacles [])

/-- Game._spawn_single_zombie: up to 100 random attempts (the attempt stream
is the oracle for random.randint pairs); the first point passing both tests
is appended to the live set; exhausting the budget changes nothing. -/
def Game.spawnSingleZombie (attempts : List (ℤ × ℤ)) (kind : ZombieKind)
    (g : GameState) : GameState :=
  match (attempts.take 100).find? (spawnOk g kind) with
  | some a => { g with zombies :=
      g.zombies ++ [zombieOfKind kind (a.1 : ℚ) (a.2 : ℚ)] }
  | none => g

/-- Game._spawn_zombie_wave at tick t: halted permanently once the boss is
killed; otherwise, on the spawn interval and under the spawn cap, compose a
wave by wave index and spawn each member through the placement routine. -/
def Game.spawnZombieWave (env : Env) (t : ℕ) (g : GameState) : GameState :=
  if g.bossKilled then g
  else if t - g.zombieSpawnTimer > g.spawnInterval ∧
      g.zombiesSpawned < g.maxZombies then
    let comp : List ZombieKind × GameState :=
      if g.currentWave < 2 then
        ((List.range g.zombiesPerWave).map fun i =>
          if env.waveRand i < 15/100 then ZombieKind.fast else ZombieKind.normal, g)
      else if g.currentWave < 4 then
        ((List.range g.zombiesPerWave).map fun i =>
          if env.waveRand i < 3/10 then ZombieKind.fast else ZombieKind.normal, g)
      else if !g.bossSpawned then
        (ZombieKind.boss :: List.replicate (g.zombiesPerWave - 1) ZombieKind.fast,
         { g with bossSpawned := true })
      else
        (List.replicate g.zombiesPerWave ZombieKind.fast, g)
    let waveZombies := comp.1
    let g := comp.2
    let g := (waveZombies.zip (List.range waveZombies.length)).foldl
      (fun g ki =>
        if g.zombiesSpawned < g.maxZombies then
          let g2 := Game.spawnSingleZombie (env.spawnAttempts ki.2) ki.1 g
          { g2 with zombiesSpawned := g2.zombiesSpawned + 1 }
        else g) g
    { g with currentWave := g.currentWave + 1, zombieSpawnTimer := t }
  else g

/-- The kill bookkeeping block of Game.update_game (shared verbatim by the
grenade and bullet branches): classify the dead zombie by class, add the
kill, surface a skill bonus notification, remove the zombie from the live
set, and run the boss death handler for a boss. -/
def Game.handleZombieKill (g : GameState) (t : ℕ) (z : Zombie) : GameState :=
  let zombieType := match z.kind with
    | .boss => "boss"
    | .fast => "fast"
    | .normal => "normal"
  let r := g.player.addKill zombieType
  let g := { g with player := r.1 }
  let g := if r.2 > 0 then
      { g with skillBonusNotification := some r.2
               skillBonusNotificationTime := t }
    else g
  let g := { g with zombies := g.zombies.erase z }
  if z.kind == ZombieKind.boss then Game.handleBossDeath g z.x z.y else g

/-- The explosion damage loop of Game.update_game: every zombie in the blast
query result takes the grenade damage; a zombie that dies while still in the
live set is removed with full kill bookkeeping.  In the source the damage
mutates the shared object inside the live list; here the list entry is
replaced by the damaged value. -/
def Game.grenadeDamageZombies (g : GameState) (t : ℕ) (damage : ℤ)
    (targets : List Zombie) : GameState :=
  targets.foldl
    (fun g z =>
      let r := z.takeDamage damage t
      let g := { g with zombies := g.zombies.replace z r.1 }
      if r.2 && g.zombies.contains r.1 then Game.handleZombieKill g t r.1
      else g) g

/-- One tick of the grenade loop of Game.update_game for one grenade:
advance, test impact, and while the grenade is in the exploded state apply
the blast query result to zombies and the player; finally drop the grenade
once its display window ends or it leaves the map.  Returns the surviving
grenade, if any. -/
def Game.processGrenadeTick (t : ℕ) (g : GameState) (gr : Grenade) :
    GameState × Option Grenade :=
  let gr := gr.update
  let gr := if !gr.exploded then (gr.checkCollision g.zombies g.obstacles).1 else gr
  if gr.exploded then
    let targets := gr.getExplosionDamageTargets g.zombies g.player.x g.player.y
    let g := Game.grenadeDamageZombies g t gr.damage targets.1
    if targets.2 then
      let r := g.player.takeDamage
      let g := { g with player := r.1 }
      if r.2 then ({ g with phase := GamePhase.lost }, some gr)
      else if gr.isFinished || gr.isOutOfBounds then (g, none) else (g, some gr)
    else
      if gr.isFinished || gr.isOutOfBounds then (g, none) else (g, some gr)
  else
    if gr.isFinished || gr.isOutOfBounds then (g, none) else (g, some gr)

/-- The zombie-player contact pass of Game.update_game at tick t: under the
one second global cooldown, the first zombie in proximity applies one hit of
player damage; a fatal hit ends the game before the cooldown stamp is
written; the loop breaks after the first hit. -/
def Game.zombiePlayerContact (t : ℕ) (g : GameState) : GameState × Bool :=
  if !(g.phase == GamePhase.playing) then (g, false)
  else if t - g.lastZombieDamage > 1000 then
    match g.zombies.find? (fun z => z.canDamagePlayer g.player.x g.player.y) with
    | some _ =>
      let r := g.player.takeDamage
      if r.2 then ({ g with player := r.1, phase := GamePhase.lost }, true)
      else ({ g with player := r.1, lastZombieDamage := t }, true)
    | none => (g, false)
  else (g, false)

/-- Run the contact pass over a trace of ticks; each entry supplies the tick
time and the zombie configuration at that tick.  Returns the times at which
a hit of contact damage was applied. -/
def Game.runContacts : List (ℕ × List Zombie) → GameState → List ℕ
  | [], _ => []
  | (t, zs) :: rest, g =>
    let r := Game.zombiePlayerContact t { g with zombies := zs }
    if r.2 then t :: Game.runContacts rest r.1
    else Game.runContacts rest r.1

/-! Concrete scenario states used by witnesses and counterexample
evaluations. -/

/-- A fixed oracle environment for concrete evaluations. -/
def env0 : Env :=
  { cos := fun _ => 1, sin := fun _ => 0, atan2 := fun _ _ => 0, pi := 0
    randUniform := 0, randAngles := fun _ => 0, waveRand := fun _ => 0
    spawnAttempts := fun _ => [] }

/-- A grenade one frame away from its flight-time ceiling, thrown with zero
speed at the origin. -/
def c1Grenade : Grenade :=
  { Grenade.init env0 0 0 0 0 5 GRENADE_EXPLOSION_RADIUS with flightTime := 89 }

/-- Player 50 units from the origin, boss zombie 10 units from it: both
inside the 80 unit blast radius. -/
def c1Game : GameState :=
  mkGame (Player.init 50 0 HeroType.nathan) [ZombieBoss.init 10 0] []

/-- First tick: the grenade detonates and the blast is applied. -/
def c1Step1 : GameState × Option Grenade :=
  Game.processGrenadeTick 1000 c1Game c1Grenade

/-- Second tick: the same detonation is applied again. -/
def c1Step2 : GameState × Option Grenade :=
  Game.processGrenadeTick 1017 c1Step1.1 (c1Step1.2.getD c1Grenade)

/-- The player state after n hit-free kills of normal zombies, starting from
a fresh player. -/
def killStreakState : ℕ → Player
  | 0 => Player.init 100 100 HeroType.nathan
  | n + 1 => ((killStreakState n).addKill "normal").1

/-- The milestone bonus reported by the n-th kill of the streak (1-based). -/
def killBonus (n : ℕ) : ℕ := ((killStreakState (n - 1)).addKill "normal").2

/-- A player whose current weapon is the shotgun with an empty magazine. -/
def shotgunPlayer : Player :=
  { Player.init 100 100 HeroType.nathan with
    weapons := fun _ => some WeaponType.shotgun
    ammo := Function.update initialAmmo WeaponType.shotgun 0 }

/-- The state immediately after start_reload at tick t0 with 0 of 5
shells. -/
def shotgunReloadStart (t0 : ℕ) : Player := (shotgunPlayer.startReload t0).1

/-- The reload state after k per-tick update_reload calls, the k-th call
arriving dt milliseconds after the previous one. -/
def shotgunReloadTrace (t0 dt : ℕ) : ℕ → Player
  | 0 => shotgunReloadStart t0
  | k + 1 => (shotgunReloadTrace t0 dt k).updateReload (t0 + (k + 1) * dt)

/-- A player mid shotgun reload with shells available, used to exercise the
blocked-shot path of shoot. -/
def c9Player : Player :=
  { Player.init 100 100 HeroType.nathan with
    weapons := fun _ => some WeaponType.shotgun
    isReloading := true, reloadWeapon := some WeaponType.shotgun
    reloadStartTime := 50 }

/-- A game with one standard zombie at full health 3, about to undergo the
boss-death conversion. -/
def c10Game : GameState :=
  mkGame (Player.init 100 100 HeroType.nathan) [Zombie.init 300 300] []

/-- A game with one standard zombie, used as the C6 witness input. -/
def c6Game : GameState :=
  mkGame (Player.init 100 100 HeroType.nathan) [Zombie.init 400 400] []

/-- The same game with the boss-defeated flag raised. -/
def c6KilledGame : GameState := { c6Game with bossKilled := true }

/-- A standard zombie clear of the single obstacle, used as the C2
witness input. -/
def c2Zombie : Zombie := Zombie.init 300 300

/-- One obstacle away from the C2 witness zombie. -/
def c2Obstacles : List Rect := [{ x := 100, y := 100, w := 30, h := 30 }]

/-! Theorems. -/

/-- C5: boss damage at or above the instant-kill magnitude 1000 is reduced
to its quotient by 500 before being subtracted from health; damage below the
magnitude is applied in full; a boss at full health survives one hit of the
instant-kill damage value 1000. -/
theorem boss_damage_attenuation (z : Zombie) (d : ℤ) (t : ℕ) :
    (1000 ≤ d → (ZombieBoss.takeDamage z d t).1.health = z.health - d / 500) ∧
    (d < 1000 → (ZombieBoss.takeDamage z d t).1.health = z.health - d) ∧
    (ZombieBoss.takeDamage (ZombieBoss.init 0 0) 1000 t).2 = false := by
  refine ⟨fun h => ?_, fun h => ?_, ?_⟩
  · simp only [ZombieBoss.takeDamage, ge_iff_le, if_pos h]
  · simp only [ZombieBoss.takeDamage, ge_iff_le, if_neg (by omega : ¬ (1000:ℤ) ≤ d)]
  · rfl

/-- Witness for C5 at concrete damage values 1500 and 400. -/
theorem boss_damage_attenuation_check :
    ((1000:ℤ) ≤ 1500 ∧
      (ZombieBoss.takeDamage (ZombieBoss.init 0 0) 1500 7).1.health = 30 - 1500 / 500) ∧
    ((400:ℤ) < 1000 ∧
      (ZombieBoss.takeDamage (ZombieBoss.init 0 0) 400 7).1.health = 30 - 400) :=
  ⟨⟨by decide, (boss_damage_attenuation (ZombieBoss.init 0 0) 1500 7).1 (by decide)⟩,
   ⟨by decide, (boss_damage_attenuation (ZombieBoss.init 0 0) 400 7).2.1 (by decide)⟩⟩

/-- C10: the boss-death conversion copies the old health without clamping:
a standard zombie with health 3 becomes a fast zombie with health 3 while
the fast variant max health is 2, so health exceeds max health. -/
theorem conversion_health_exceeds_max :
    ((Game.handleBossDeath c10Game 500 500).zombies.map fun z =>
        (z.kind, z.health, z.maxHealth)) = [(ZombieKind.fast, 3, 2)] ∧
    (Game.handleBossDeath c10Game 500 500).zombies.all
        (fun z => decide (z.maxHealth < z.health)) = true := by
  constructor
  · rfl
  · rfl

/-- C3: with a fresh never-hit player, the 10th kill reports a bonus of
exactly 500, kills 11 through 19 report no bonus, and the 20th kill reports
exactly 1000. -/
theorem kill_streak_milestones :
    killBonus 10 = 500 ∧ (∀ k < 9, killBonus (11 + k) = 0) ∧
      killBonus 20 = 1000 := by
  refine ⟨by decide, by decide, by decide⟩

/-- Witness for C3 at the 14th kill. -/
theorem kill_streak_milestones_check : (3:ℕ) < 9 ∧ killBonus (11 + 3) = 0 :=
  ⟨by decide, kill_streak_milestones.2.1 3 (by decide)⟩

set_option maxRecDepth 4000 in
/-- C1 (bug evidence): a single detonation applies its blast damage on two
consecutive ticks: the boss in radius loses 5 health on each of the two
ticks after the one detonation, and the player in radius takes one hit on
each tick. -/
theorem grenade_blast_damage_repeats :
    (c1Step1.1.zombies.map Zombie.health = [25] ∧
      c1Step1.1.player.health = 4 ∧ c1Step1.2.isSome = true) ∧
    (c1Step2.1.zombies.map Zombie.health = [20] ∧
      c1Step2.1.player.health = 3) := by
  refine ⟨⟨?_, ?_, ?_⟩, ⟨?_, ?_⟩⟩ <;> with_unfolding_all rfl

/-- C9: calling shoot mid shotgun reload with at least one shell, while the
cooldown since the last shot has not elapsed, produces no projectiles yet
clears the reload state. -/
theorem blocked_shotgun_shot_clears_reload (p : Player) (t : ℕ)
    (targetX targetY : ℚ) (env : Env)
    (hw : p.getCurrentWeapon = some WeaponType.shotgun)
    (hr : p.isReloading = true)
    (ha : 1 ≤ p.ammo WeaponType.shotgun)
    (hcool : ¬ t - p.lastShot > weaponCooldown WeaponType.shotgun) :
    p.shoot t targetX targetY env = ([], [], { p with isReloading := false }) := by
  have ha2 : ¬ p.ammo WeaponType.shotgun < 1 := by omega
  have ha3 : ¬ p.ammo WeaponType.shotgun ≤ 0 := by omega
  simp only [Player.shoot, hw, hr]
  simp [Player.shootFire, ha2, ha3, hcool]

/-- Witness for C9: the concrete mid-reload shotgun player, shot attempted
100 milliseconds after the last shot (cooldown 500). -/
theorem blocked_shotgun_shot_clears_reload_check :
    c9Player.shoot 100 0 0 env0 = ([], [], { c9Player with isReloading := false }) :=
  blocked_shotgun_shot_clears_reload c9Player 100 0 0 env0 rfl rfl
    (by decide) (by decide)

/-- C7: a zombie actually added by the placement routine is strictly
farther (in squared distance) than the minimum spawn distance from the
player and collision free against the obstacles; otherwise the call leaves
the state unchanged, signalling nothing. -/
theorem spawn_single_zombie_placement (attempts : List (ℤ × ℤ))
    (kind : ZombieKind) (g : GameState) :
    Game.spawnSingleZombie attempts kind g = g ∨
    ∃ z, Game.spawnSingleZombie attempts kind g
          = { g with zombies := g.zombies ++ [z] } ∧
      sq (z.x - g.player.x) + sq (z.y - g.player.y)
          > sq ZOMBIE_MIN_SPAWN_DISTANCE ∧
      Zombie.checkCollision z z.x z.y g.obstacles [] = false := by
  cases hf : (attempts.take 100).find? (spawnOk g kind) with
  | none =>
    left
    simp [Game.spawnSingleZombie, hf]
  | some a =>
    right
    have hp := List.find?_some hf
    rw [spawnOk, Bool.and_eq_true] at hp
    obtain ⟨h1, h2⟩ := hp
    have hx : (zombieOfKind kind (a.1 : ℚ) (a.2 : ℚ)).x = (a.1 : ℚ) := by
      cases kind <;> rfl
    have hy : (zombieOfKind kind (a.1 : ℚ) (a.2 : ℚ)).y = (a.2 : ℚ) := by
      cases kind <;> rfl
    refine ⟨zombieOfKind kind (a.1 : ℚ) (a.2 : ℚ),
      by simp [Game.spawnSingleZombie, hf], ?_, ?_⟩
    · rw [hx, hy]
      exact of_decide_eq_true h1
    · rw [hx, hy]
      simpa using h2

/-- C6: the boss-death handler raises the boss-killed flag and converts
every live zombie into the fast variant in place, preserving position and
current health; with the flag raised the wave spawner is a no-op, so no
further spawning happens until a full reset (only restart_game clears the
flag). -/
theorem boss_death_conversion_halts_spawning (g : GameState)
    (bossX bossY : ℚ) :
    (Game.handleBossDeath g bossX bossY).bossKilled = true ∧
    (Game.handleBossDeath g bossX bossY).zombies.length = g.zombies.length ∧
    (∀ (i : ℕ) (hi : i < g.zombies.length)
        (hi2 : i < (Game.handleBossDeath g bossX bossY).zombies.length),
      ((Game.handleBossDeath g bossX bossY).zombies.get ⟨i, hi2⟩).kind
          = ZombieKind.fast ∧
      ((Game.handleBossDeath g bossX bossY).zombies.get ⟨i, hi2⟩).x
          = (g.zombies.get ⟨i, hi⟩).x ∧
      ((Game.handleBossDeath g bossX bossY).zombies.get ⟨i, hi2⟩).y
          = (g.zombies.get ⟨i, hi⟩).y ∧
      ((Game.handleBossDeath g bossX bossY).zombies.get ⟨i, hi2⟩).health
          = (g.zombies.get ⟨i, hi⟩).health) ∧
    (∀ (env : Env) (t : ℕ) (g2 : GameState), g2.bossKilled = true →
      Game.spawnZombieWave env t g2 = g2) := by
  refine ⟨rfl, by simp [Game.handleBossDeath], ?_, ?_⟩
  · intro i hi hi2
    simp only [Game.handleBossDeath, List.get_eq_getElem, List.getElem_map]
    by_cases hk : (g.zombies[i]).kind = ZombieKind.fast
    · simp [hk]
    · simp [hk, FastZombie.init, Zombie.init]
  · intro env t g2 h
    simp [Game.spawnZombieWave, h]

/-- Witness for C6: a game with one standard zombie, converted and then fed
through the spawner with the flag raised. -/
theorem boss_death_conversion_check :
    ((Game.handleBossDeath c6Game 700 700).zombies.get
        ⟨0, by decide⟩).kind = ZombieKind.fast ∧
    Game.spawnZombieWave env0 9000 c6KilledGame = c6KilledGame :=
  ⟨((boss_death_conversion_halts_spawning c6Game 700 700).2.2.1 0 (by decide)
      (by decide)).1,
   (boss_death_conversion_halts_spawning c6Game 700 700).2.2.2 env0 9000
      c6KilledGame rfl⟩

/-- The shell-loading loop from the diagonal start state (shells reloaded
equal to ammo) yields the capped due count. -/
theorem loadShotgunShells_diag :
    ∀ (n a d m : ℕ), d - a ≤ n → a ≤ m →
      loadShotgunShells a a d m = (min m (max a d), min m (max a d)) := by
  intro n
  induction n with
  | zero =>
    intro a d m hn hm
    rw [loadShotgunShells]
    rw [if_neg (by omega)]
    have he : min m (max a d) = a := by omega
    rw [he]
  | succ n ih =>
    intro a d m hn hm
    rw [loadShotgunShells]
    by_cases h : a < d ∧ a < m
    · rw [if_pos h]
      rw [ih (a + 1) d m (by omega) (by omega)]
      have he : min m (max (a + 1) d) = min m (max a d) := by omega
      rw [he]
    · rw [if_neg h]
      have he : min m (max a d) = a := by omega
      rw [he]

/-- update_reload is a no-op when no reload is active. -/
theorem updateReload_idle (p : Player) (t : ℕ) (h : p.isReloading = false) :
    p.updateReload t = p := by
  unfold Player.updateReload
  rw [h]
  rfl

/-- One update_reload step on an active shotgun reload whose shell counter
agrees with the magazine: the magazine becomes the elapsed-based due count,
capped at max and never below its previous value, and the reloading flag
tracks whether the magazine is full. -/
theorem updateReload_shotgun_step (p : Player) (t : ℕ)
    (hr : p.isReloading = true)
    (hw : p.reloadWeapon = some WeaponType.shotgun)
    (hs : p.shotgunShellsReloaded = p.ammo WeaponType.shotgun)
    (hm : p.ammo WeaponType.shotgun ≤ 5) :
    (p.updateReload t).ammo WeaponType.shotgun
        = min 5 (max (p.ammo WeaponType.shotgun) ((t - p.reloadStartTime) / 1000)) ∧
    (p.updateReload t).shotgunShellsReloaded
        = (p.updateReload t).ammo WeaponType.shotgun ∧
    (p.updateReload t).isReloading
        = decide ((p.updateReload t).ammo WeaponType.shotgun < 5) ∧
    (p.updateReload t).reloadWeapon = some WeaponType.shotgun ∧
    (p.updateReload t).reloadStartTime = p.reloadStartTime := by
  have key : p.updateReload t =
      (let r := loadShotgunShells (p.ammo WeaponType.shotgun)
        p.shotgunShellsReloaded ((t - p.reloadStartTime) / 1000) 5
       let p2 := { p with ammo := Function.update p.ammo WeaponType.shotgun r.1
                          shotgunShellsReloaded := r.2 }
       if p2.ammo WeaponType.shotgun ≥ 5 then { p2 with isReloading := false }
       else p2) := by
    unfold Player.updateReload
    rw [hr, hw]
    rfl
  rw [key, hs,
    loadShotgunShells_diag ((t - p.reloadStartTime) / 1000) _ _ 5 (by omega) hm]
  by_cases hfull :
      min 5 (max (p.ammo WeaponType.shotgun) ((t - p.reloadStartTime) / 1000)) ≥ 5
  · simp only [Function.update_same]
    rw [if_pos (by simpa using hfull)]
    refine ⟨by simp, by simp, ?_, hw ▸ rfl, rfl⟩
    simp only []
    have : ¬ min 5 (max (p.ammo WeaponType.shotgun)
        ((t - p.reloadStartTime) / 1000)) < 5 := by omega
    simp [Function.update_same, this]
  · simp only [Function.update_same]
    rw [if_neg (by simpa using hfull)]
    refine ⟨by simp, by simp, ?_, hw ▸ rfl, rfl⟩
    have : min 5 (max (p.ammo WeaponType.shotgun)
        ((t - p.reloadStartTime) / 1000)) < 5 := by omega
    simp [Function.update_same, this, hr]

/-- Invariant of the per-tick shotgun reload trace: the magazine holds the
capped floor of elapsed time over the per-shell duration, the shell counter
mirrors it, and the reloading flag holds exactly while the magazine is not
full. -/
theorem shotgunReloadTrace_inv (t0 dt : ℕ) (k : ℕ) :
    (shotgunReloadTrace t0 dt k).reloadWeapon = some WeaponType.shotgun ∧
    (shotgunReloadTrace t0 dt k).reloadStartTime = t0 ∧
    (shotgunReloadTrace t0 dt k).shotgunShellsReloaded
        = (shotgunReloadTrace t0 dt k).ammo WeaponType.shotgun ∧
    (shotgunReloadTrace t0 dt k).ammo WeaponType.shotgun
        = min 5 (k * dt / 1000) ∧
    (shotgunReloadTrace t0 dt k).isReloading
        = decide ((shotgunReloadTrace t0 dt k).ammo WeaponType.shotgun < 5) := by
  induction k with
  | zero =>
    refine ⟨rfl, rfl, rfl, ?_, rfl⟩
    show (0 : ℕ) = min 5 (0 * dt / 1000)
    simp
  | succ k ih =>
    obtain ⟨hw, ht, hs, ha, hr⟩ := ih
    have hdivmono : k * dt / 1000 ≤ (k + 1) * dt / 1000 :=
      Nat.div_le_div_right (Nat.mul_le_mul_right dt (Nat.le_succ k))
    by_cases hlt : (shotgunReloadTrace t0 dt k).ammo WeaponType.shotgun < 5
    · have hr2 : (shotgunReloadTrace t0 dt k).isReloading = true := by
        rw [hr]
        simpa using hlt
      obtain ⟨s1, s2, s3, s4, s5⟩ := updateReload_shotgun_step
        (shotgunReloadTrace t0 dt k) (t0 + (k + 1) * dt) hr2 hw hs (by omega)
      have helapsed : t0 + (k + 1) * dt - (shotgunReloadTrace t0 dt k).reloadStartTime
          = (k + 1) * dt := by
        rw [ht]
        omega
      have hval : (shotgunReloadTrace t0 dt (k + 1)).ammo WeaponType.shotgun
          = min 5 ((k + 1) * dt / 1000) := by
        show ((shotgunReloadTrace t0 dt k).updateReload
            (t0 + (k + 1) * dt)).ammo WeaponType.shotgun = _
        rw [s1, helapsed, ha]
        omega
      exact ⟨s4, by rw [show (shotgunReloadTrace t0 dt (k+1))
              = (shotgunReloadTrace t0 dt k).updateReload (t0 + (k + 1) * dt) from rfl,
            s5, ht], s2, hval, s3⟩
    · have ha5 : (shotgunReloadTrace t0 dt k).ammo WeaponType.shotgun = 5 := by omega
      have hfive : (5:ℕ) ≤ k * dt / 1000 := by
        rw [ha5] at ha
        omega
      have hr2 : (shotgunReloadTrace t0 dt k).isReloading = false := by
        rw [hr]
        simpa using hlt
      have hid : shotgunReloadTrace t0 dt (k + 1) = shotgunReloadTrace t0 dt k :=
        updateReload_idle _ _ hr2
      rw [hid]
      refine ⟨hw, ht, hs, ?_, hr⟩
      rw [ha5]
      omega

/-- C4: a shotgun reload started with 0 of 5 shells and updated every tick
(ticks dt milliseconds apart) holds exactly min 5 (elapsed / 1000) shells
after each update, stays in the reloading state exactly while below 5
shells (so it completes exactly once 5 x 1000 ms have elapsed), and with
dt at most one second it gains at most one shell per tick. -/
theorem shotgun_reload_schedule (t0 dt k : ℕ) :
    (shotgunReloadTrace t0 dt k).ammo WeaponType.shotgun
        = min 5 (k * dt / 1000) ∧
    ((shotgunReloadTrace t0 dt k).isReloading = true ↔ k * dt / 1000 < 5) ∧
    (dt ≤ 1000 →
      (shotgunReloadTrace t0 dt (k + 1)).ammo WeaponType.shotgun
        ≤ (shotgunReloadTrace t0 dt k).ammo WeaponType.shotgun + 1) := by
  obtain ⟨_, _, _, ha, hr⟩ := shotgunReloadTrace_inv t0 dt k
  obtain ⟨_, _, _, ha2, _⟩ := shotgunReloadTrace_inv t0 dt (k + 1)
  refine ⟨ha, ?_, ?_⟩
  · rw [hr, ha]
    constructor
    · intro h
      have := of_decide_eq_true h
      omega
    · intro h
      have : min 5 (k * dt / 1000) < 5 := by omega
      simpa using this
  · intro hdt
    rw [ha, ha2]
    have hle : (k + 1) * dt ≤ k * dt + 1000 := by
      have : (k + 1) * dt = k * dt + dt := by ring
      omega
    have hdiv : (k + 1) * dt / 1000 ≤ k * dt / 1000 + 1 := by
      calc (k + 1) * dt / 1000 ≤ (k * dt + 1000) / 1000 :=
            Nat.div_le_div_right hle
        _ = k * dt / 1000 + 1 := Nat.add_div_right _ (by norm_num)
    omega

/-- Witness for C4 at dt = 600 ms: after two ticks (1200 ms) one shell is
loaded, and the third tick loads at most one more. -/
theorem shotgun_reload_schedule_check :
    (shotgunReloadTrace 0 600 2).ammo WeaponType.shotgun
        = min 5 (2 * 600 / 1000) ∧
    ((600:ℕ) ≤ 1000 ∧
      (shotgunReloadTrace 0 600 3).ammo WeaponType.shotgun
        ≤ (shotgunReloadTrace 0 600 2).ammo WeaponType.shotgun + 1) :=
  ⟨(shotgun_reload_schedule 0 600 2).1,
   by decide, (shotgun_reload_schedule 0 600 2).2.2 (by decide)⟩

/-- Case analysis of one contact pass: either no hit is applied and the
cooldown stamp and phase are untouched, or one hit is applied, the pass time
exceeds the stored stamp by more than the cooldown, and afterwards either
the stamp equals the pass time or the game is lost. -/
theorem zombiePlayerContact_spec (t : ℕ) (g : GameState) :
    ((Game.zombiePlayerContact t g).2 = false ∧
      (Game.zombiePlayerContact t g).1.lastZombieDamage = g.lastZombieDamage ∧
      (Game.zombiePlayerContact t g).1.phase = g.phase) ∨
    ((Game.zombiePlayerContact t g).2 = true ∧
      g.lastZombieDamage + 1000 < t ∧
      ((Game.zombiePlayerContact t g).1.lastZombieDamage = t ∨
        (Game.zombiePlayerContact t g).1.phase = GamePhase.lost)) := by
  unfold Game.zombiePlayerContact
  by_cases hp : (g.phase == GamePhase.playing) = true
  · by_cases hcool : t - g.lastZombieDamage > 1000
    · cases hz : g.zombies.find? (fun z => z.canDamagePlayer g.player.x g.player.y) with
      | none => left; simp [hp, hcool, hz]
      | some z =>
        right
        by_cases hdie : (g.player.takeDamage).2 = true
        · refine ⟨by simp [hp, hcool, hz, hdie], by omega,
            Or.inr (by simp [hp, hcool, hz, hdie])⟩
        · rw [Bool.not_eq_true] at hdie
          refine ⟨by simp [hp, hcool, hz, hdie], by omega,
            Or.inl (by simp [hp, hcool, hz, hdie])⟩
    · left; simp [hp, hcool]
  · left
    rw [Bool.not_eq_true] at hp
    simp [hp]

/-- Once the phase is not playing, the contact pass never applies damage
again. -/
theorem runContacts_notPlaying (trace : List (ℕ × List Zombie)) :
    ∀ g : GameState, ¬ g.phase = GamePhase.playing →
      Game.runContacts trace g = [] := by
  induction trace with
  | nil => intro g _; rfl
  | cons s rest ih =>
    obtain ⟨t, zs⟩ := s
    intro g h
    have hb : (({ g with zombies := zs } : GameState).phase
        == GamePhase.playing) = false := beq_eq_false_iff_ne.mpr h
    have hc : Game.zombiePlayerContact t { g with zombies := zs }
        = ({ g with zombies := zs }, false) := by
      unfold Game.zombiePlayerContact
      rw [hb]
      rfl
    simp only [Game.runContacts, hc, Bool.false_eq_true, if_false]
    exact ih _ h

/-- Every hit time recorded by a run exceeds the stored cooldown stamp by
more than one second. -/
theorem runContacts_hits_gt (trace : List (ℕ × List Zombie)) :
    ∀ (g : GameState) (t2 : ℕ), t2 ∈ Game.runContacts trace g →
      g.lastZombieDamage + 1000 < t2 := by
  induction trace with
  | nil => intro g t2 h; simp [Game.runContacts] at h
  | cons s rest ih =>
    obtain ⟨t, zs⟩ := s
    intro g t2 hmem
    rcases zombiePlayerContact_spec t { g with zombies := zs } with
      ⟨hf, hl, _⟩ | ⟨ht, hgt, hor⟩
    · simp only [Game.runContacts, hf, Bool.false_eq_true, if_false] at hmem
      have := ih _ t2 hmem
      rw [hl] at this
      exact this
    · simp only [Game.runContacts, ht, if_true] at hmem
      have hgt2 : g.lastZombieDamage + 1000 < t := hgt
      rcases List.mem_cons.mp hmem with rfl | htail
      · exact hgt2
      · rcases hor with hlast | hlost
        · have h2 := ih _ t2 htail
          rw [hlast] at h2
          omega
        · rw [runContacts_notPlaying rest _ (by rw [hlost]; decide)] at htail
          simp at htail

/-- Consecutive hit times of any run are separated by more than one
second. -/
theorem runContacts_chain (trace : List (ℕ × List Zombie)) :
    ∀ g : GameState,
      List.Chain' (fun a b => a + 1000 < b) (Game.runContacts trace g) := by
  induction trace with
  | nil => intro g; simp [Game.runContacts]
  | cons s rest ih =>
    obtain ⟨t, zs⟩ := s
    intro g
    rcases zombiePlayerContact_spec t { g with zombies := zs } with
      ⟨hf, _, _⟩ | ⟨ht, _, hor⟩
    · simp only [Game.runContacts, hf, Bool.false_eq_true, if_false]
      exact ih _
    · simp only [Game.runContacts, ht, if_true]
      rw [List.chain'_cons']
      refine ⟨?_, ih _⟩
      intro y hy
      have hymem : y ∈ Game.runContacts rest
          (Game.zombiePlayerContact t { g with zombies := zs }).1 :=
        List.mem_of_mem_head? hy
      rcases hor with hlast | hlost
      · have := runContacts_hits_gt rest _ y hymem
        rw [hlast] at this
        exact this
      · rw [runContacts_notPlaying rest _ (by rw [hlost]; decide)] at hymem
        simp at hymem

/-- C8: over any trace of contact passes, any two recorded hits of contact
damage are separated by more than 1000 ms (so any one-second window holds
at most one hit, the cooldown stamp being shared by all hostiles), and a
single pass lowers the player health by at most one regardless of how many
hostiles are in proximity. -/
theorem contact_damage_cooldown (trace : List (ℕ × List Zombie))
    (g : GameState) :
    List.Chain' (fun a b => a + 1000 < b) (Game.runContacts trace g) ∧
    ∀ (t : ℕ) (g2 : GameState),
      g2.player.health - 1 ≤ (Game.zombiePlayerContact t g2).1.player.health := by
  refine ⟨runContacts_chain trace g, ?_⟩
  intro t g2
  unfold Game.zombiePlayerContact
  split
  · show g2.player.health - 1 ≤ g2.player.health
    omega
  · split
    · split
      · simp only [Player.takeDamage]
        split
        · simp only []
          omega
        · simp only []
          omega
      · show g2.player.health - 1 ≤ g2.player.health
        omega
    · show g2.player.health - 1 ≤ g2.player.health
      omega

/-- A successful findSome? yields a member at which the function
succeeds. -/
theorem findSome?_some_mem {α β : Type} (f : α → Option β) :
    ∀ (l : List α) (b : β), l.findSome? f = some b → ∃ a, a ∈ l ∧ f a = some b := by
  intro l
  induction l with
  | nil => intro b h; simp [List.findSome?] at h
  | cons x xs ih =>
    intro b h
    rw [List.findSome?_cons] at h
    cases hfx : f x with
    | some v =>
      rw [hfx] at h
      simp at h
      exact ⟨x, List.mem_cons_self x xs, by rw [hfx, h]⟩
    | none =>
      rw [hfx] at h
      simp at h
      obtain ⟨a, ha, hfa⟩ := ih b h
      exact ⟨a, List.mem_cons_of_mem x ha, hfa⟩

/-- A committed guarded move was confirmed collision free. -/
theorem tryMoveAt_some {z : Zombie} {dx dy : ℚ} {obstacles : List Rect}
    {others : List Zombie} {p : ℚ × ℚ}
    (h : z.tryMoveAt dx dy obstacles others = some p) :
    z.checkCollision p.1 p.2 obstacles others = false := by
  unfold Zombie.tryMoveAt at h
  split at h
  · exact absurd h (by simp)
  · next hc =>
    rw [Bool.not_eq_true] at hc
    cases h
    exact hc

/-- A collision-free point is in particular free of obstacle overlap. -/
theorem checkCollision_false_obstacles {z : Zombie} {x y : ℚ}
    {obstacles : List Rect} {others : List Zombie}
    (h : z.checkCollision x y obstacles others = false) :
    collidesWithObstacles x y z.size obstacles = false := by
  unfold Zombie.checkCollision at h
  exact (Bool.or_eq_false_iff.mp h).1

/-- The heading decision only touches avoidance bookkeeping. -/
theorem determineMovementAngle_fields (env : Env) (z : Zombie) (d : ℚ) :
    (Zombie.determineMovementAngle env z d).2.x = z.x ∧
    (Zombie.determineMovementAngle env z d).2.y = z.y ∧
    (Zombie.determineMovementAngle env z d).2.size = z.size := by
  simp only [Zombie.determineMovementAngle]
  repeat' split
  all_goals simp

/-- The stuck bookkeeping only touches the stuck counter. -/
theorem updateStuckDetection_fields (z : Zombie) (px py : ℚ) (s : Bool) :
    (Zombie.updateStuckDetection z px py s).x = z.x ∧
    (Zombie.updateStuckDetection z px py s).y = z.y ∧
    (Zombie.updateStuckDetection z px py s).size = z.size := by
  simp only [Zombie.updateStuckDetection]
  split <;> simp

/-- Every rung of the movement ladder commits only confirmed collision-free
positions, so the base update preserves obstacle freedom. -/
theorem update_obstacle_free (env : Env) (z : Zombie) (playerX playerY : ℚ)
    (obstacles : List Rect) (others : List Zombie)
    (h : collidesWithObstacles z.x z.y z.size obstacles = false) :
    collidesWithObstacles
      (Zombie.update env z playerX playerY obstacles others).x
      (Zombie.update env z playerX playerY obstacles others).y
      (Zombie.update env z playerX playerY obstacles others).size
      obstacles = false := by
  simp only [Zombie.update]
  split
  · next p heq =>
    obtain ⟨f1, f2, f3⟩ := updateStuckDetection_fields _ z.x z.y true
    rw [f1, f2, f3]
    simp only [Zombie.tryDirectMovement] at heq
    have hc := checkCollision_false_obstacles (tryMoveAt_some heq)
    simpa using hc
  · split
    · next p heq =>
      simp only [Zombie.tryAxisAlignedMovement] at heq
      obtain ⟨f1, f2, f3⟩ := updateStuckDetection_fields _ z.x z.y true
      rw [f1, f2, f3]
      split at heq
      · next heq2 =>
        cases heq
        have hc := checkCollision_false_obstacles (tryMoveAt_some heq2)
        simpa using hc
      · have hc := checkCollision_false_obstacles (tryMoveAt_some heq)
        simpa using hc
    · split
      · next p heq =>
        simp only [Zombie.tryWallSliding] at heq
        obtain ⟨f1, f2, f3⟩ := updateStuckDetection_fields _ z.x z.y true
        rw [f1, f2, f3]
        obtain ⟨a, _, hfa⟩ := findSome?_some_mem _ _ _ heq
        have hc := checkCollision_false_obstacles (tryMoveAt_some hfa)
        simpa using hc
      · obtain ⟨f1, f2, f3⟩ := updateStuckDetection_fields _ z.x z.y false
        rw [f1, f2, f3]
        split
        · next p heq =>
          simp only [Zombie.tryUnstuckMovement] at heq
          obtain ⟨a, _, hfa⟩ := findSome?_some_mem _ _ _ heq
          have hc := checkCollision_false_obstacles (tryMoveAt_some hfa)
          simpa using hc
        · obtain ⟨g1, g2, g3⟩ := determineMovementAngle_fields env
            { z with angleToPlayer := env.atan2 (playerY - z.y) (playerX - z.x) }
            (sq (playerX - z.x) + sq (playerY - z.y))
          rw [g1, g2, g3]
          exact h

/-- C2: a hostile whose bounding region is free of obstacle overlap before
its movement update is still free of obstacle overlap after the update,
whichever rung of the ladder (direct, axis-aligned, wall slide, unstuck
jitter, or no move at all) commits: every committed position was confirmed
collision free first.  Holds for every trigonometric and random oracle and
for all three variants. -/
theorem zombie_move_keeps_obstacle_free (env : Env) (z : Zombie)
    (playerX playerY : ℚ) (obstacles : List Rect) (others : List Zombie)
    (h : collidesWithObstacles z.x z.y z.size obstacles = false) :
    collidesWithObstacles
      (Zombie.updateDispatch env z playerX playerY obstacles others).x
      (Zombie.updateDispatch env z playerX playerY obstacles others).y
      (Zombie.updateDispatch env z playerX playerY obstacles others).size
      obstacles = false := by
  unfold Zombie.updateDispatch
  cases z.kind with
  | boss =>
    show collidesWithObstacles
      (ZombieBoss.update env z playerX playerY obstacles others).x
      (ZombieBoss.update env z playerX playerY obstacles others).y
      (ZombieBoss.update env z playerX playerY obstacles others).size
      obstacles = false
    unfold ZombieBoss.update
    exact update_obstacle_free env z playerX playerY obstacles others h
  | normal => exact update_obstacle_free env z playerX playerY obstacles others h
  | fast => exact update_obstacle_free env z playerX playerY obstacles others h

/-- Witness for C2: a concrete zombie, obstacle set and oracle. -/
theorem zombie_move_keeps_obstacle_free_check :
    collidesWithObstacles c2Zombie.x c2Zombie.y c2Zombie.size c2Obstacles = false ∧
    collidesWithObstacles
      (Zombie.updateDispatch env0 c2Zombie 0 0 c2Obstacles []).x
      (Zombie.updateDispatch env0 c2Zombie 0 0 c2Obstacles []).y
      (Zombie.updateDispatch env0 c2Zombie 0 0 c2Obstacles []).size
      c2Obstacles = false :=
  ⟨by with_unfolding_all rfl,
   zombie_move_keeps_obstacle_free env0 c2Zombie 0 0 c2Obstacles []
     (by with_unfolding_all rfl)⟩

end ZombieSurvivor
